import Mathlib

/-!
Shallow embedding of the Seismic Damage Sampling & Serviceability
Aggregation Engine of `src/modules/hydraulic_simulator.py`.

Pure numeric code is translated into functions over `ℚ` and `ℝ`
(Python floats are modelled as exact real arithmetic); the ambient
numpy random stream is modelled as an explicit stream `rng : ℕ → ℕ × ℚ`
together with a cursor: each scenario row that names a pipe consumes
exactly one stream element, whose first component is the result of the
`np.random.poisson` call and whose second component is the result of the
`np.random.uniform()` call for that row.  External collaborators (the
wntr network model, `wntr.morph.split_pipe`, `add_leak`,
`wntr.metrics.expected_demand`, and the hydraulic solver) are modelled
from the spec's boundary contracts in sections 4.3, 4.4 and 6; the solver
itself is a parameter of the run.
-/

/-- A row of the earthquake scenario table: `(scenario_index, site_id, PGA, PGV)`
(spec section 6, `scenarios_df` in the source). -/
structure ScenarioRow where
  scenario_index : ℤ
  site_id : String
  PGA : ℚ
  PGV : ℚ

/-- Physical attributes of a pipe read from the base topology:
`length` in feet and `diameter` (spec section 3, `PipeAttributes`). -/
structure Pipe where
  length : ℚ
  diameter : ℚ

/-- A junction node of the network together with its base demand, which
drives the external collaborator `ExpectedDemand` (spec sections 4.4 and 6). -/
structure Junction where
  name : String
  base_demand : ℚ

/-- A leak attached to a node by `add_leak`: the node name, the orifice
area and the activity window (source line 68). -/
structure Leak where
  node : String
  area : ℝ
  start_time : ℤ
  end_time : ℤ

/-- Modelled from the spec: the wntr `WaterNetworkModel` handle, reduced to
the parts the engine touches — the named pipes with their attributes, the
junction list (with base demands, the input of `ExpectedDemand`), and the
leaks added so far.  A freshly loaded base network has `leaks = []`. -/
structure WaterNetworkModel where
  pipes : List (String × Pipe)
  junctions : List Junction
  leaks : List Leak

/-- Membership test `row['site_id'] in wn.pipe_name_list` combined with the
`wn.get_link` lookup of the source (lines 117, 120, 123). -/
def findPipe (wn : WaterNetworkModel) (nm : String) : Option Pipe :=
  (wn.pipes.find? (fun p => p.1 == nm)).map Prod.snd

/-- Lookup of a junction by name, as used by the serviceability reduction. -/
def findJunction (wn : WaterNetworkModel) (nm : String) : Option Junction :=
  wn.junctions.find? (fun j => j.name == nm)

/-- Modelled from the spec: the external collaborator
`SplitPipe(snapshot, pipe_id) → (snapshot', new_node_id)`
(`wntr.morph.split_pipe(wn, str(pipe), pipe_A, Leak_pipe)`, source line 66;
spec section 4.3: split the pipe into two segments at its midpoint and
insert a new intermediate leak-capable node, which carries no demand). -/
def split_pipe (wn : WaterNetworkModel) (pipeName newPipeName newJunctionName : String) :
    WaterNetworkModel :=
  match findPipe wn pipeName with
  | none => wn
  | some p =>
    { pipes := (wn.pipes.map (fun q =>
          if q.1 = pipeName then (q.1, Pipe.mk (p.length / 2) p.diameter) else q))
        ++ [(newPipeName, Pipe.mk (p.length / 2) p.diameter)],
      junctions := wn.junctions ++ [Junction.mk newJunctionName 0],
      leaks := wn.leaks }

/-- Modelled from the spec: the external collaborator
`AddLeak(snapshot, node_id, area, t_start, t_end)` (`leak_node.add_leak`,
source line 68). -/
def add_leak (wn : WaterNetworkModel) (node : String) (area : ℝ) (s e : ℤ) :
    WaterNetworkModel :=
  { wn with leaks := wn.leaks ++ [Leak.mk node area s e] }

/-! ### The damage sampler (source lines 119-126) -/

/-- Source line 119: `repair_rate = 0.000241 * row['PGV'] / 100`. -/
def repair_rate_of (pgv : ℚ) : ℚ := 0.000241 * pgv / 100

/-- Source line 120: `link_length = wn.get_link(pipe_name).length * 0.3048`. -/
def link_length_of (lengthFt : ℚ) : ℚ := lengthFt * 0.3048

/-- Python `int()` applied to a float: truncation toward zero. -/
def int_trunc (x : ℚ) : ℤ := if 0 ≤ x then ⌊x⌋ else ⌈x⌉

/-- Source line 122: `leaks = int(0.85 * num_damages)`. -/
def leaks_of (n : ℕ) : ℤ := int_trunc (0.85 * n)

/-- Source line 122: `breaks = int(0.15 * num_damages)`. -/
def breaks_of (n : ℕ) : ℤ := int_trunc (0.15 * n)

/-- Source line 124: `area = np.pi * (diameter / 2) ** 2`. -/
noncomputable def area_of (d : ℚ) : ℝ := Real.pi * ((d : ℝ) / 2) ^ 2

/-- Source line 125:
`orifice_area = min((0.03 * leaks + 0.2 * breaks) * area, area)`. -/
noncomputable def orifice_area_of (n : ℕ) (d : ℚ) : ℝ :=
  min ((0.03 * (leaks_of n : ℝ) + 0.2 * (breaks_of n : ℝ)) * area_of d) (area_of d)

/-- Source line 126: `pf = 1 - np.exp(-repair_rate * link_length)`. -/
noncomputable def pf_of (pgv lengthFt : ℚ) : ℝ :=
  1 - Real.exp (-((repair_rate_of pgv * link_length_of lengthFt : ℚ) : ℝ))

/-- The `DamageDraw` record of the spec's data model (section 3). -/
structure DamageDraw where
  repair_rate : ℚ
  length_m : ℚ
  leak_count : ℤ
  break_count : ℤ
  orifice_area : ℝ
  failure_probability : ℝ

/-- The damage draw exactly as the source computes it (lines 119-126),
assembled from the per-line definitions above; `n` is the Poisson draw. -/
noncomputable def code_damage_draw (lengthFt d pgv : ℚ) (n : ℕ) : DamageDraw :=
  { repair_rate := repair_rate_of pgv
    length_m := link_length_of lengthFt
    leak_count := leaks_of n
    break_count := breaks_of n
    orifice_area := orifice_area_of n d
    failure_probability := pf_of pgv lengthFt }

/-- Modelled from the spec: the DamageSampler formulas of section 4.1,
written from the spec text (with `floor`, as the spec says) for the
refinement comparison with `code_damage_draw`. -/
noncomputable def spec_damage_draw (lengthFt d pgv : ℚ) (n : ℕ) : DamageDraw :=
  { repair_rate := 0.000241 * pgv / 100
    length_m := lengthFt * 0.3048
    leak_count := ⌊(0.85 : ℚ) * n⌋
    break_count := ⌊(0.15 : ℚ) * n⌋
    orifice_area :=
      min ((0.03 * ((⌊(0.85 : ℚ) * n⌋ : ℤ) : ℝ) + 0.2 * ((⌊(0.15 : ℚ) * n⌋ : ℤ) : ℝ)) *
          (Real.pi * ((d : ℝ) / 2) ^ 2))
        (Real.pi * ((d : ℝ) / 2) ^ 2)
    failure_probability :=
      1 - Real.exp (-(((0.000241 * pgv / 100) * (lengthFt * 0.3048) : ℚ) : ℝ)) }

/-! ### The scenario damage planner (`apply_damage_states`, source lines 114-131) -/

/-- Source lines 114-131.  Walks the scenario's rows; for each row whose
`site_id` names a pipe of the network it consumes one element of the
shared random stream (the Poisson draw `n` and the uniform draw `u` of
that row) and, when `u < pf`, records `(site_id, orifice_area)` in the
damage plan.  Returns the plan together with the stream cursor after the
walk; rows that do not name a pipe consume no randomness. -/
noncomputable def apply_damage_states (wn : WaterNetworkModel) :
    List ScenarioRow → (ℕ → ℕ × ℚ) → ℕ → List (String × ℝ) × ℕ
  | [], _, k => ([], k)
  | row :: rest, rng, k =>
    match findPipe wn row.site_id with
    | none => apply_damage_states wn rest rng k
    | some pipe =>
      let num_damages := (rng k).1
      let u := (rng k).2
      let res := apply_damage_states wn rest rng (k + 1)
      if (u : ℝ) < pf_of row.PGV pipe.length then
        ((row.site_id, orifice_area_of num_damages pipe.diameter) :: res.1, res.2)
      else res

/-! ### Serviceability reduction (source lines 74-84) -/

/-- Mean of a time series, as `.mean()` of the source. -/
def listMean (l : List ℚ) : ℚ := l.sum / l.length

/-- Modelled from the spec: the external collaborator
`ExpectedDemand(snapshot) → per-node baseline required demand`
(`wntr.metrics.expected_demand(wn)[node].mean()`, source line 80) —
the mean expected demand of a node is the base demand of the junction of
that name, and 0 for nodes that are not junctions. -/
def expected_demand_mean (wn : WaterNetworkModel) (nm : String) : ℚ :=
  ((findJunction wn nm).map Junction.base_demand).getD 0

/-- Source lines 74-84: for every junction node of the (possibly damaged)
network, compute `satisfied_demand / required_demand`, skipping nodes
whose required demand is zero.  `results` is the per-node demand series
returned by the solver. -/
def scenario_serviceability (wn : WaterNetworkModel) (results : String → List ℚ) :
    List (String × ℚ) :=
  wn.junctions.filterMap (fun j =>
    let satisfied_demand := listMean (results j.name)
    let required_demand := expected_demand_mean wn j.name
    if required_demand = 0 then none else some (j.name, satisfied_demand / required_demand))

/-! ### Per-scenario network mutation (source lines 63-68) -/

/-- The hydraulic configuration set on the network options and used by the
solver (source lines 56-59 and the arguments of `run_hydraulic_simulation`). -/
structure HydraulicConfig where
  duration : ℤ
  leak_start_time : ℤ
  leak_end_time : ℤ
  minimum_pressure : ℚ
  required_pressure : ℚ

/-- Source lines 63-68: for each `(pipe_id, orifice_area)` of the damage
plan, split the pipe (adding the junction `Leak_pipe`) and attach a leak
of the drawn area over the configured window. -/
def mutate (base : WaterNetworkModel) (plan : List (String × ℝ)) (cfg : HydraulicConfig) :
    WaterNetworkModel :=
  plan.foldl (fun wn pa =>
    add_leak (split_pipe wn pa.1 (pa.1 ++ "_A") ("Leak_" ++ pa.1))
      ("Leak_" ++ pa.1) pa.2 cfg.leak_start_time cfg.leak_end_time) base

/-! ### Accumulation and the final wide-to-long reshape (source lines 86-93) -/

/-- Source lines 87-90: `serviceability_dict[node].append(value)`, creating
the key on first sight (Python dict preserves insertion order). -/
def insertAppend : List (String × List ℚ) → String → ℚ → List (String × List ℚ)
  | [], n, v => [(n, [v])]
  | (m, l) :: rest, n, v =>
    if m = n then (m, l ++ [v]) :: rest else (m, l) :: insertAppend rest n v

/-- Source lines 86-90: merge one scenario's serviceability records into the
accumulator. -/
def accumulate (acc : List (String × List ℚ)) (serv : List (String × ℚ)) :
    List (String × List ℚ) :=
  serv.foldl (fun a nv => insertAppend a nv.1 nv.2) acc

/-- Source lines 92-93: `pd.DataFrame.from_dict` / `transpose` / `melt`.
Modelled from pandas semantics: `from_dict` raises `ValueError` when the
per-node value lists have unequal lengths; otherwise the melted long table
lists, for each value-column position `t` (the 0-based scenario position)
in order, one row `(t, site_id, values[t])` per node in dict order, and
`astype int` keeps the positional column labels as the `scenario_index`. -/
def reshape : List (String × List ℚ) → Except String (List (ℤ × String × ℚ))
  | [] => .ok []
  | (n, l) :: rest =>
    if ((n, l) :: rest).all (fun x => x.2.length == l.length) then
      .ok ((List.range l.length).flatMap (fun t =>
        ((n, l) :: rest).map (fun x => ((t : ℤ), x.1, x.2.getD t 0))))
    else .error "All arrays must be of the same length"

/-! ### The batch run (`run_hydraulic_simulation`, source lines 29-95) -/

/-- Insertion of an integer into a sorted list (ascending). -/
def insertSorted (i : ℤ) : List ℤ → List ℤ
  | [] => [i]
  | j :: rest => if i ≤ j then i :: j :: rest else j :: insertSorted i rest

/-- Insertion sort of integer keys. -/
def sortKeys : List ℤ → List ℤ
  | [] => []
  | i :: rest => insertSorted i (sortKeys rest)

/-- The distinct scenario keys in ascending order, as produced by
`scenarios_df.groupby('scenario_index')` (pandas groups sort by key). -/
def scenarioKeys (df : List ScenarioRow) : List ℤ :=
  sortKeys (df.map ScenarioRow.scenario_index).dedup

/-- The rows of one scenario, in input order (one groupby group). -/
def scenarioGroup (df : List ScenarioRow) (i : ℤ) : List ScenarioRow :=
  df.filter (fun r => r.scenario_index = i)

/-- The per-scenario loop of `run_hydraulic_simulation` (source lines
53-90): for each scenario key in order, load a fresh copy of the base
network, plan the damage (advancing the shared random-stream cursor),
mutate the scenario's private snapshot, call the solver, and accumulate
the reduced serviceability records.  The solver `sim` is the external
`wntr.sim.WNTRSimulator(wn).run_sim()` boundary; a solver error propagates
out exactly as an uncaught Python exception would (the source has no
handler around line 72). -/
noncomputable def run_scenarios (base : WaterNetworkModel) (df : List ScenarioRow)
    (cfg : HydraulicConfig)
    (sim : WaterNetworkModel → HydraulicConfig → Except String (String → List ℚ))
    (rng : ℕ → ℕ × ℚ) :
    List ℤ → List (String × List ℚ) → ℕ → Except String (List (String × List ℚ))
  | [], acc, _ => .ok acc
  | i :: rest, acc, k =>
    let st := apply_damage_states base (scenarioGroup df i) rng k
    let wn2 := mutate base st.1 cfg
    match sim wn2 cfg with
    | .error e => .error e
    | .ok results =>
      run_scenarios base df cfg sim rng rest
        (accumulate acc (scenario_serviceability wn2 results)) st.2

/-- Source lines 29-95, the whole batch: run every scenario and reshape
the accumulated dictionary into the long-format serviceability table. -/
noncomputable def run_hydraulic_simulation (base : WaterNetworkModel)
    (df : List ScenarioRow) (cfg : HydraulicConfig)
    (sim : WaterNetworkModel → HydraulicConfig → Except String (String → List ℚ))
    (rng : ℕ → ℕ × ℚ) : Except String (List (ℤ × String × ℚ)) :=
  match run_scenarios base df cfg sim rng (scenarioKeys df) [] 0 with
  | .error e => .error e
  | .ok acc => reshape acc

/-! ### Helper lemmas about the sampler -/

/-- Python `int()` truncation agrees with `floor` on nonnegative values. -/
theorem int_trunc_nonneg_eq_floor {x : ℚ} (h : 0 ≤ x) : int_trunc x = ⌊x⌋ := if_pos h

/-- Leak counts are nonnegative. -/
theorem leaks_of_nonneg (n : ℕ) : (0 : ℤ) ≤ leaks_of n := by
  rw [leaks_of, int_trunc_nonneg_eq_floor (by positivity)]
  exact Int.floor_nonneg.mpr (by positivity)

/-- Break counts are nonnegative. -/
theorem breaks_of_nonneg (n : ℕ) : (0 : ℤ) ≤ breaks_of n := by
  rw [breaks_of, int_trunc_nonneg_eq_floor (by positivity)]
  exact Int.floor_nonneg.mpr (by positivity)

/-- The full-bore cross-sectional area is nonnegative. -/
theorem area_of_nonneg (d : ℚ) : 0 ≤ area_of d := by
  rw [area_of]; positivity

/-- With `num_damages = 3`, `leak_count = int(2.55) = 2`. -/
theorem leaks_of_three : leaks_of 3 = 2 := by norm_num [leaks_of, int_trunc]

/-- With `num_damages = 3`, `break_count = int(0.45) = 0`. -/
theorem breaks_of_three : breaks_of 3 = 0 := by norm_num [breaks_of, int_trunc]

/-- The full-bore area of a pipe of diameter one half. -/
theorem area_of_half : area_of (1 / 2) = Real.pi * (1 / 16) := by
  rw [area_of]; norm_num

/-- With `num_damages = 3` and diameter one half the sampled orifice area is
`0.06 * π/16 = 0.00375 π`. -/
theorem orifice_area_of_three : orifice_area_of 3 (1 / 2) = 0.06 * (Real.pi * (1 / 16)) := by
  rw [orifice_area_of, leaks_of_three, breaks_of_three, area_of_half]
  rw [min_eq_left (by nlinarith [Real.pi_pos])]
  norm_num

/-- C1: every pipe row's damage draw is computed exactly by the spec's
fragility formulas — `repair_rate = 0.000241 * PGV / 100`,
`length_m = length_ft * 0.3048`, `leak_count = floor(0.85 * num_damages)`,
`break_count = floor(0.15 * num_damages)`, `area = pi * (diameter/2)^2`,
`orifice_area = min((0.03*leak_count + 0.2*break_count) * area, area)`,
`pf = 1 - exp(-repair_rate * length_m)` — and in particular, for a pipe of
diameter `0.5` and `num_damages = 3`, `leak_count = 2`, `break_count = 0`
and the orifice area is approximately `0.01178`. -/
theorem C1_fragility_formulas :
    (∀ (lengthFt d pgv : ℚ) (n : ℕ),
        code_damage_draw lengthFt d pgv n = spec_damage_draw lengthFt d pgv n) ∧
    leaks_of 3 = 2 ∧ breaks_of 3 = 0 ∧
    0.01178 < orifice_area_of 3 (1 / 2) ∧ orifice_area_of 3 (1 / 2) < 0.011781 := by
  have hO := orifice_area_of_three
  refine ⟨?_, leaks_of_three, breaks_of_three, ?_, ?_⟩
  · intro lengthFt d pgv n
    simp only [code_damage_draw, spec_damage_draw, leaks_of, breaks_of,
      int_trunc_nonneg_eq_floor (show (0:ℚ) ≤ 0.85 * n by positivity),
      int_trunc_nonneg_eq_floor (show (0:ℚ) ≤ 0.15 * n by positivity),
      orifice_area_of, area_of, pf_of, repair_rate_of, link_length_of]
  · rw [hO]; nlinarith [Real.pi_gt_d6]
  · rw [hO]; nlinarith [Real.pi_lt_d6]

/-- C7: for every pipe and every damage draw, the computed orifice area
satisfies `0 ≤ orifice_area ≤ π * (diameter/2)^2` — never negative and
never above the pipe's full-bore cross-sectional area. -/
theorem C7_orifice_area_bounds (n : ℕ) (d : ℚ) :
    0 ≤ orifice_area_of n d ∧ orifice_area_of n d ≤ Real.pi * ((d : ℝ) / 2) ^ 2 := by
  have hA := area_of_nonneg d
  have hl : (0 : ℝ) ≤ (leaks_of n : ℝ) := by exact_mod_cast leaks_of_nonneg n
  have hb : (0 : ℝ) ≤ (breaks_of n : ℝ) := by exact_mod_cast breaks_of_nonneg n
  constructor
  · exact le_min (by nlinarith) hA
  · exact min_le_right _ _

/-- The failure probability is positive whenever the Poisson rate
`repair_rate * length_m` is positive. -/
theorem pf_pos_of {pgv len : ℚ} (h : 0 < repair_rate_of pgv * link_length_of len) :
    0 < pf_of pgv len := by
  rw [pf_of]
  have h1 : Real.exp (-((repair_rate_of pgv * link_length_of len : ℚ) : ℝ)) < 1 :=
    Real.exp_lt_one_iff.mpr (by push_cast; exact_mod_cast neg_neg_of_pos (by exact_mod_cast h))
  linarith

/-- The failure probability is zero whenever the Poisson rate is zero. -/
theorem pf_zero_of {pgv len : ℚ} (h : repair_rate_of pgv * link_length_of len = 0) :
    pf_of pgv len = 0 := by
  rw [pf_of, h]
  norm_num

/-- With `num_damages = 1` both damage counts floor to zero, and the
sampled orifice area is zero. -/
theorem orifice_area_of_one (d : ℚ) : orifice_area_of 1 d = 0 := by
  have hl : leaks_of 1 = 0 := by norm_num [leaks_of, int_trunc]
  have hb : breaks_of 1 = 0 := by norm_num [breaks_of, int_trunc]
  rw [orifice_area_of, hl, hb]
  simpa using min_eq_left (area_of_nonneg d)

/-- A one-pipe, one-junction test network (pipe `P1`: 1000 ft, diameter 0.5;
junction `J` with base demand 1). -/
def baseNet : WaterNetworkModel :=
  { pipes := [("P1", Pipe.mk 1000 (1 / 2))]
    junctions := [Junction.mk "J" 1]
    leaks := [] }

/-- A hydraulic configuration used by the concrete runs. -/
def testCfg : HydraulicConfig :=
  { duration := 24, leak_start_time := 0, leak_end_time := 24,
    minimum_pressure := 0, required_pressure := 20 }

/-- On `baseNet`'s pipe `P1` with `PGV = 100` the failure probability is
positive, so a uniform draw of `0` marks the pipe failed. -/
theorem pf_pos_base : (0 : ℝ) < pf_of 100 1000 := by
  apply pf_pos_of
  norm_num [repair_rate_of, link_length_of]

/-- C9: for the random draw `num_damages = 1`, `uniform = 0` (a small
Poisson draw floors both counts to zero while the independent Bernoulli
failure draw succeeds), pipe `P1` is marked failed with `orifice_area = 0`,
is nonetheless added to the damage plan, and a zero-area leak `Leak_P1` is
inserted into the scenario's snapshot — the zero-area case is not filtered
out at any stage. -/
theorem C9_zero_area_leak_inserted :
    orifice_area_of 1 (1 / 2) = 0 ∧
    (apply_damage_states baseNet [ScenarioRow.mk 0 "P1" 0 100] (fun _ => (1, 0)) 0).1
      = [("P1", (0 : ℝ))] ∧
    (mutate baseNet [("P1", (0 : ℝ))] testCfg).leaks = [Leak.mk "Leak_P1" 0 0 24] := by
  refine ⟨orifice_area_of_one _, ?_, ?_⟩
  · have hfind : findPipe baseNet "P1" = some (Pipe.mk 1000 (1 / 2)) := rfl
    simp only [apply_damage_states, hfind]
    rw [if_pos (by exact_mod_cast pf_pos_base)]
    simp [orifice_area_of_one]
  · rfl


/-- C8 counterexample: a batch whose only scenario row references the
unknown site id `GHOST` is not rejected — the run silently skips the row
(source line 117 is a plain membership test, there is no validation pass)
and returns a normal serviceability table, contradicting the claim that
the whole batch is rejected with an `InputError` before any scenario runs. -/
theorem C8_counterexample_unknown_id_not_rejected :
    run_hydraulic_simulation baseNet [ScenarioRow.mk 0 "GHOST" 0 0] testCfg
      (fun _ _ => .ok (fun _ => [1])) (fun _ => (0, 0))
      = .ok [((0 : ℤ), "J", (1 : ℚ))] := by
  have h3 : apply_damage_states baseNet [ScenarioRow.mk 0 "GHOST" 0 0]
      (fun _ => ((0 : ℕ), (0 : ℚ))) 0 = ([], 0) := rfl
  have h4 : scenario_serviceability baseNet (fun _ => [1]) = [("J", 1)] := by
    norm_num [scenario_serviceability, expected_demand_mean, findJunction, baseNet,
      listMean, List.filterMap_cons]
  have h1 : scenarioKeys [ScenarioRow.mk 0 "GHOST" 0 0] = [0] := rfl
  have h2 : scenarioGroup [ScenarioRow.mk 0 "GHOST" 0 0] 0 = [ScenarioRow.mk 0 "GHOST" 0 0] := rfl
  rw [run_hydraulic_simulation, h1]
  rw [run_scenarios, h2]
  simp only [h3, h4, mutate, List.foldl_nil]
  rw [run_scenarios]
  simp only [accumulate, insertAppend, List.foldl_cons, List.foldl_nil, reshape]
  norm_num [List.range_succ]

/-- C8 amended: a scenario row whose `site_id` is not a pipe of the network
is silently skipped by the damage planner — no error is raised, no random
draw is consumed, and the batch proceeds as if the row were absent. -/
theorem C8_amended_unknown_rows_skipped (wn : WaterNetworkModel) (row : ScenarioRow)
    (rows : List ScenarioRow) (rng : ℕ → ℕ × ℚ) (k : ℕ)
    (h : findPipe wn row.site_id = none) :
    apply_damage_states wn (row :: rows) rng k = apply_damage_states wn rows rng k := by
  simp [apply_damage_states, h]

/-- Witness for the amended C8 at a concrete input. -/
theorem C8_amended_witness :
    apply_damage_states baseNet
        [ScenarioRow.mk 0 "GHOST" 0 0, ScenarioRow.mk 0 "J" 0 0] (fun _ => (0, 0)) 0
      = apply_damage_states baseNet [ScenarioRow.mk 0 "J" 0 0] (fun _ => (0, 0)) 0 :=
  C8_amended_unknown_rows_skipped baseNet _ _ _ 0 rfl

/-- C4 (code bug): the source has no handler around `sim.run_sim()`
(line 72), so a solver divergence on any scenario propagates and aborts the
entire batch — here a two-scenario batch whose solver diverges returns the
bare error: no table is produced, the healthy scenario's results are lost,
and no manifest of excluded scenarios is reported to the caller. -/
theorem C4_solver_error_aborts_batch :
    run_hydraulic_simulation baseNet
      [ScenarioRow.mk 0 "J" 0 0, ScenarioRow.mk 1 "J" 0 0] testCfg
      (fun _ _ => .error "SimulationDivergenceError") (fun _ => (0, 0))
      = .error "SimulationDivergenceError" := by
  rfl

/-- With `num_damages = 0` both damage counts are zero and the sampled
orifice area is zero. -/
theorem orifice_area_of_zero_draws (d : ℚ) : orifice_area_of 0 d = 0 := by
  have hl : leaks_of 0 = 0 := by norm_num [leaks_of, int_trunc]
  have hb : breaks_of 0 = 0 := by norm_num [breaks_of, int_trunc]
  rw [orifice_area_of, hl, hb]
  simpa using min_eq_left (area_of_nonneg d)

/-- The shared global random stream of the order-dependence counterexample:
the first Poisson/uniform slot is `(3, 0)`, every later slot is `(0, 0)`. -/
def rngShared : ℕ → ℕ × ℚ := fun k => if k = 0 then (3, 0) else (0, 0)

open Classical in
/-- Demand series of a solver stub that distinguishes damaged snapshots:
full demand `[1]` when every leak of the snapshot has zero area, `[1/2]`
otherwise. -/
noncomputable def leakSensitiveDemand (wn : WaterNetworkModel) : String → List ℚ :=
  fun _ => if ∀ l ∈ wn.leaks, l.area = 0 then [1] else [1 / 2]

/-- The corresponding never-diverging solver stub. -/
noncomputable def leakSensitiveSim (wn : WaterNetworkModel) :
    HydraulicConfig → Except String (String → List ℚ) := fun _ =>
  .ok (leakSensitiveDemand wn)

/-- The serviceability records one scenario reduces to, given its damage
plan and a solver: the per-scenario NetworkMutator → SolverAdapter →
ServiceabilityReducer composition of the source loop (lines 61-84). -/
noncomputable def simServ
    (sim : WaterNetworkModel → HydraulicConfig → Except String (String → List ℚ))
    (base : WaterNetworkModel) (plan : List (String × ℝ)) (cfg : HydraulicConfig) :
    List (String × ℚ) :=
  match sim (mutate base plan cfg) cfg with
  | .ok r => scenario_serviceability (mutate base plan cfg) r
  | .error _ => []

/-- C5 (code bug): the source draws from the ambient shared numpy stream
with no per-scenario seeding, so per-scenario results depend on execution
order.  Scenario B (one matched pipe row) consumes exactly one stream slot;
scenario A's damage plan is `[(P1, 0.00375π)]` when A runs first (cursor 0)
but `[(P1, 0)]` when A runs after B (cursor 1), and A's reduced
serviceability differs accordingly (`1/2` against `1`) — refuting
order-independence of per-scenario draws and serviceability results. -/
theorem C5_shared_stream_order_dependence :
    (apply_damage_states baseNet [ScenarioRow.mk 1 "P1" 0 100] rngShared 0).2 = 1 ∧
    (apply_damage_states baseNet [ScenarioRow.mk 0 "P1" 0 100] rngShared 0).1
      = [("P1", orifice_area_of 3 (1 / 2))] ∧
    (apply_damage_states baseNet [ScenarioRow.mk 0 "P1" 0 100] rngShared 1).1
      = [("P1", (0 : ℝ))] ∧
    [("P1", orifice_area_of 3 (1 / 2))] ≠ [("P1", (0 : ℝ))] ∧
    simServ leakSensitiveSim baseNet [("P1", orifice_area_of 3 (1 / 2))] testCfg
      = [("J", 1 / 2)] ∧
    simServ leakSensitiveSim baseNet [("P1", (0 : ℝ))] testCfg = [("J", 1)] := by
  have hfind : findPipe baseNet "P1" = some (Pipe.mk 1000 (1 / 2)) := rfl
  have hoa3 : (0 : ℝ) < orifice_area_of 3 (1 / 2) := by
    rw [orifice_area_of_three]; positivity
  have hfJ : List.find? (fun j => j.name == "J")
      [Junction.mk "J" 1, Junction.mk "Leak_P1" 0] = some (Junction.mk "J" 1) := rfl
  have hfL : List.find? (fun j => j.name == "Leak_P1")
      [Junction.mk "J" 1, Junction.mk "Leak_P1" 0] = some (Junction.mk "Leak_P1" 0) := rfl
  have hmu1_j : (mutate baseNet [("P1", orifice_area_of 3 (1 / 2))] testCfg).junctions
      = [Junction.mk "J" 1, Junction.mk "Leak_P1" 0] := rfl
  have hmu1_l : (mutate baseNet [("P1", orifice_area_of 3 (1 / 2))] testCfg).leaks
      = [Leak.mk "Leak_P1" (orifice_area_of 3 (1 / 2)) 0 24] := rfl
  have hmu0_j : (mutate baseNet [("P1", (0 : ℝ))] testCfg).junctions
      = [Junction.mk "J" 1, Junction.mk "Leak_P1" 0] := rfl
  have hmu0_l : (mutate baseNet [("P1", (0 : ℝ))] testCfg).leaks
      = [Leak.mk "Leak_P1" 0 0 24] := rfl
  refine ⟨?_, ?_, ?_, ?_, ?_, ?_⟩
  · simp only [apply_damage_states, hfind, rngShared]
    norm_num
    rw [if_pos pf_pos_base]
  · simp only [apply_damage_states, hfind, rngShared]
    norm_num
    rw [if_pos pf_pos_base]
  · simp only [apply_damage_states, hfind, rngShared]
    norm_num [orifice_area_of_zero_draws]
    rw [if_pos pf_pos_base]
  · simp only [ne_eq, List.cons.injEq, Prod.mk.injEq]
    intro h
    exact absurd h.1.2 (ne_of_gt hoa3)
  · rw [simServ, leakSensitiveSim]
    have hdm : leakSensitiveDemand
        (mutate baseNet [("P1", orifice_area_of 3 (1 / 2))] testCfg) = fun _ => [1 / 2] := by
      funext x
      simp only [leakSensitiveDemand, hmu1_l]
      rw [if_neg (by simp only [List.mem_singleton, forall_eq]; exact ne_of_gt hoa3)]
    simp only [hdm]
    simp only [scenario_serviceability, expected_demand_mean, findJunction, hmu1_j,
      List.filterMap_cons, List.filterMap_nil, hfJ, hfL]
    norm_num [listMean]
  · rw [simServ, leakSensitiveSim]
    have hdm : leakSensitiveDemand
        (mutate baseNet [("P1", (0 : ℝ))] testCfg) = fun _ => [1] := by
      funext x
      simp only [leakSensitiveDemand, hmu0_l]
      rw [if_pos (by simp)]
    simp only [hdm]
    simp only [scenario_serviceability, expected_demand_mean, findJunction, hmu0_j,
      List.filterMap_cons, List.filterMap_nil, hfJ, hfL]
    norm_num [listMean]

/-! ### Shape of the mutated snapshot and of the reducer's output -/

/-- Adding a leak does not change the junction list. -/
theorem add_leak_junctions (wn : WaterNetworkModel) (n : String) (a : ℝ) (s e : ℤ) :
    (add_leak wn n a s e).junctions = wn.junctions := rfl

/-- Splitting a pipe either leaves the junction list unchanged (unknown
pipe) or appends the new zero-demand leak junction. -/
theorem split_pipe_junctions (wn : WaterNetworkModel) (p np nj : String) :
    (split_pipe wn p np nj).junctions = wn.junctions ∨
    (split_pipe wn p np nj).junctions = wn.junctions ++ [Junction.mk nj 0] := by
  rw [split_pipe]
  cases findPipe wn p <;> simp

/-- Mutation only appends zero-demand junctions named `Leak_…`: the mutated
snapshot's junction list is the base junction list followed by leak
junctions, each with base demand 0. -/
theorem mutate_junctions (base : WaterNetworkModel) (plan : List (String × ℝ))
    (cfg : HydraulicConfig) :
    ∃ extra, (mutate base plan cfg).junctions = base.junctions ++ extra ∧
      ∀ e ∈ extra, e.base_demand = 0 ∧ ∃ s, e.name = "Leak_" ++ s := by
  induction plan generalizing base with
  | nil => exact ⟨[], by simp [mutate], by simp⟩
  | cons pa rest ih =>
    have hstep : mutate base (pa :: rest) cfg
        = mutate (add_leak (split_pipe base pa.1 (pa.1 ++ "_A") ("Leak_" ++ pa.1))
            ("Leak_" ++ pa.1) pa.2 cfg.leak_start_time cfg.leak_end_time) rest cfg := rfl
    obtain ⟨extra', h1, h2⟩ := ih (add_leak (split_pipe base pa.1 (pa.1 ++ "_A")
      ("Leak_" ++ pa.1)) ("Leak_" ++ pa.1) pa.2 cfg.leak_start_time cfg.leak_end_time)
    rw [add_leak_junctions] at h1
    rcases split_pipe_junctions base pa.1 (pa.1 ++ "_A") ("Leak_" ++ pa.1) with h | h
    · exact ⟨extra', by rw [hstep, h1, h], h2⟩
    · refine ⟨Junction.mk ("Leak_" ++ pa.1) 0 :: extra', ?_, ?_⟩
      · rw [hstep, h1, h, List.append_assoc]
        rfl
      · intro e he
        rcases List.mem_cons.mp he with rfl | he'
        · exact ⟨rfl, pa.1, rfl⟩
        · exact h2 e he'

/-- In a junction list with pairwise distinct names, looking a member up by
its own name finds exactly that member. -/
theorem find?_name_of_nodup {l : List Junction} (hnd : (l.map Junction.name).Nodup)
    {j : Junction} (hj : j ∈ l) : l.find? (fun x => x.name == j.name) = some j := by
  induction l with
  | nil => cases hj
  | cons a t ih =>
    rcases List.mem_cons.mp hj with rfl | hj'
    · exact List.find?_cons_of_pos _ (by simp)
    · rw [List.map_cons, List.nodup_cons] at hnd
      have hne : a.name ≠ j.name := by
        intro h
        exact hnd.1 (h ▸ List.mem_map_of_mem Junction.name hj')
      rw [List.find?_cons_of_neg _ (by simp [hne])]
      exact ih hnd.2 hj'

/-- On a network with distinct junction names, the expected demand of a
junction is its base demand. -/
theorem expected_demand_mean_of_mem {wn : WaterNetworkModel}
    (hnd : (wn.junctions.map Junction.name).Nodup) {j : Junction}
    (hj : j ∈ wn.junctions) : expected_demand_mean wn j.name = j.base_demand := by
  rw [expected_demand_mean, findJunction, find?_name_of_nodup hnd hj]
  rfl

/-- Shape of the reducer's output on a mutated snapshot: exactly the base
junctions with nonzero base demand are emitted, each with value
`mean(results) / base_demand`; the appended leak junctions are always
skipped (their required demand is 0). -/
theorem scenario_serviceability_mutate (base : WaterNetworkModel)
    (plan : List (String × ℝ)) (cfg : HydraulicConfig) (r : String → List ℚ)
    (hnd : (base.junctions.map Junction.name).Nodup)
    (hfresh : ∀ j ∈ base.junctions, ∀ s, j.name ≠ "Leak_" ++ s) :
    scenario_serviceability (mutate base plan cfg) r
      = base.junctions.filterMap (fun j =>
          if j.base_demand = 0 then none
          else some (j.name, listMean (r j.name) / j.base_demand)) := by
  obtain ⟨extra, hj, hex⟩ := mutate_junctions base plan cfg
  have hlook : ∀ j ∈ base.junctions,
      expected_demand_mean (mutate base plan cfg) j.name = j.base_demand := by
    intro j hjm
    rw [expected_demand_mean, findJunction, hj, List.find?_append,
      find?_name_of_nodup hnd hjm]
    rfl
  have hlookx : ∀ e ∈ extra,
      expected_demand_mean (mutate base plan cfg) e.name = 0 := by
    intro e he
    obtain ⟨hd0, s, hs⟩ := hex e he
    have hbase : base.junctions.find? (fun x => x.name == e.name) = none := by
      rw [List.find?_eq_none]
      intro x hx
      simp only [beq_iff_eq]
      rw [hs]
      exact hfresh x hx s
    rw [expected_demand_mean, findJunction, hj, List.find?_append, hbase, Option.none_or]
    cases hfx : extra.find? (fun x => x.name == e.name) with
    | none => rfl
    | some e' =>
      have : e' ∈ extra := List.mem_of_find?_eq_some hfx
      simp [(hex e' this).1]
  rw [scenario_serviceability]
  conv_lhs => rw [hj]
  rw [List.filterMap_append]
  have hx0 : extra.filterMap (fun j =>
      let satisfied_demand := listMean (r j.name)
      let required_demand := expected_demand_mean (mutate base plan cfg) j.name
      if required_demand = 0 then none
      else some (j.name, satisfied_demand / required_demand)) = [] := by
    rw [List.filterMap_eq_nil_iff]
    intro e he
    simp only [hlookx e he]
    rfl
  rw [hx0, List.append_nil]
  apply List.filterMap_congr
  intro j hjm
  simp only [hlook j hjm]

/-- The junction names of `baseNet` are pairwise distinct. -/
theorem baseNet_names_nodup : (baseNet.junctions.map Junction.name).Nodup := by
  simp [baseNet]

/-- No junction of `baseNet` carries a `Leak_…` name. -/
theorem baseNet_names_fresh : ∀ j ∈ baseNet.junctions, ∀ s, j.name ≠ "Leak_" ++ s := by
  intro j hj s h
  simp only [baseNet, List.mem_singleton] at hj
  subst hj
  have hlen := congrArg String.length h
  simp only [String.length_append] at hlen
  have h5 : ("Leak_" : String).length = 5 := rfl
  have h1 : ("J" : String).length = 1 := rfl
  omega

/-- C3: every record emitted by the reducer has serviceability equal to the
mean of the node's demand time series divided by the node's expected
(required) demand taken from the baseline, undamaged network — the damaged
snapshot's lookup coincides with the baseline's because mutation only adds
zero-demand leak junctions — and the ratio is not clamped: whenever the
satisfied mean exceeds the (positive) baseline requirement the recorded
value exceeds 1. -/
theorem C3_serviceability_ratio_from_baseline (base : WaterNetworkModel)
    (plan : List (String × ℝ)) (cfg : HydraulicConfig) (r : String → List ℚ)
    (hnd : (base.junctions.map Junction.name).Nodup)
    (hfresh : ∀ j ∈ base.junctions, ∀ s, j.name ≠ "Leak_" ++ s) :
    ∀ x ∈ scenario_serviceability (mutate base plan cfg) r,
      expected_demand_mean base x.1 ≠ 0 ∧
      x.2 = listMean (r x.1) / expected_demand_mean base x.1 ∧
      (0 < expected_demand_mean base x.1 →
        expected_demand_mean base x.1 < listMean (r x.1) → 1 < x.2) := by
  intro x hx
  rw [scenario_serviceability_mutate base plan cfg r hnd hfresh] at hx
  obtain ⟨j, hj, hfj⟩ := List.mem_filterMap.mp hx
  by_cases hd : j.base_demand = 0
  · rw [if_pos hd] at hfj
    cases hfj
  · rw [if_neg hd] at hfj
    obtain rfl := Option.some_injective _ hfj
    have hb : expected_demand_mean base j.name = j.base_demand :=
      expected_demand_mean_of_mem hnd hj
    simp only [hb]
    refine ⟨hd, trivial, ?_⟩
    intro hpos hlt
    exact (one_lt_div hpos).mpr hlt

/-- Witness for C3 at a concrete input: one scenario of `baseNet` with an
empty damage plan and solver demand series `[2]` emits `("J", 2)`, whose
value is `mean([2]) / expected_demand(J) = 2 / 1`, preserved above 1. -/
theorem C3_witness :
    expected_demand_mean baseNet ("J", (2 : ℚ)).1 ≠ 0 ∧
    ("J", (2 : ℚ)).2 = listMean ((fun _ => [2]) ("J", (2 : ℚ)).1) /
      expected_demand_mean baseNet ("J", (2 : ℚ)).1 ∧
    (0 < expected_demand_mean baseNet ("J", (2 : ℚ)).1 →
      expected_demand_mean baseNet ("J", (2 : ℚ)).1 <
        listMean ((fun _ => [2]) ("J", (2 : ℚ)).1) → 1 < ("J", (2 : ℚ)).2) := by
  have hmem : ("J", (2 : ℚ)) ∈
      scenario_serviceability (mutate baseNet [] testCfg) (fun _ => [2]) := by
    have : mutate baseNet [] testCfg = baseNet := rfl
    rw [this]
    norm_num [scenario_serviceability, expected_demand_mean, findJunction, baseNet,
      listMean, List.filterMap_cons]
  exact C3_serviceability_ratio_from_baseline baseNet [] testCfg (fun _ => [2])
    baseNet_names_nodup baseNet_names_fresh ("J", (2 : ℚ)) hmem

/-- When every matched pipe of a scenario has zero Poisson rate and the
uniform draws are nonnegative (as `np.random.uniform()` guarantees), the
damage plan is empty: the Bernoulli test `u < pf` compares against
`pf = 0` and always fails. -/
theorem apply_damage_states_empty_of_zero_rate (base : WaterNetworkModel)
    (rows : List ScenarioRow) (rng : ℕ → ℕ × ℚ)
    (hrate : ∀ row ∈ rows, ∀ p, findPipe base row.site_id = some p →
      repair_rate_of row.PGV * link_length_of p.length = 0)
    (hu : ∀ i, 0 ≤ (rng i).2) :
    ∀ k, (apply_damage_states base rows rng k).1 = [] := by
  induction rows with
  | nil => intro k; rfl
  | cons row rest ih =>
    intro k
    have ih' := ih (fun r hr p hp => hrate r (List.mem_cons_of_mem _ hr) p hp)
    cases h : findPipe base row.site_id with
    | none => simp only [apply_damage_states, h]; exact ih' k
    | some p =>
      have hpf : pf_of row.PGV p.length = 0 :=
        pf_zero_of (hrate row (List.mem_cons_self _ _) p h)
      simp only [apply_damage_states, h, hpf]
      rw [if_neg (not_lt.mpr (by exact_mod_cast hu k))]
      exact ih' (k + 1)

/-- C6: in a scenario where every pipe row has `repair_rate * length_m = 0`
(for example `PGV = 0` everywhere), every pipe's computed failure
probability is 0, the damage plan is empty, the scenario's snapshot is
identical to the freshly loaded base topology, and — provided the solver
meets the baseline expected demand wherever it is nonzero, which is what
the undamaged baseline run yields — every emitted serviceability value
equals 1. -/
theorem C6_zero_rate_scenario (base : WaterNetworkModel) (rows : List ScenarioRow)
    (rng : ℕ → ℕ × ℚ) (k : ℕ) (cfg : HydraulicConfig) (r : String → List ℚ)
    (hrate : ∀ row ∈ rows, ∀ p, findPipe base row.site_id = some p →
      repair_rate_of row.PGV * link_length_of p.length = 0)
    (hu : ∀ i, 0 ≤ (rng i).2)
    (hbaseline : ∀ nm, expected_demand_mean base nm ≠ 0 →
      listMean (r nm) = expected_demand_mean base nm) :
    (∀ row ∈ rows, ∀ p, findPipe base row.site_id = some p →
      pf_of row.PGV p.length = 0) ∧
    (apply_damage_states base rows rng k).1 = [] ∧
    mutate base (apply_damage_states base rows rng k).1 cfg = base ∧
    ∀ x ∈ scenario_serviceability
        (mutate base (apply_damage_states base rows rng k).1 cfg) r, x.2 = 1 := by
  have hplan := apply_damage_states_empty_of_zero_rate base rows rng hrate hu k
  have hmut : mutate base (apply_damage_states base rows rng k).1 cfg = base := by
    rw [hplan]; rfl
  refine ⟨fun row hr p hp => pf_zero_of (hrate row hr p hp), hplan, hmut, ?_⟩
  intro x hx
  rw [hmut] at hx
  rw [scenario_serviceability] at hx
  obtain ⟨j, hj, hfj⟩ := List.mem_filterMap.mp hx
  by_cases hd : expected_demand_mean base j.name = 0
  · rw [if_pos hd] at hfj
    cases hfj
  · rw [if_neg hd] at hfj
    obtain rfl := Option.some_injective _ hfj
    simp only [hbaseline j.name hd]
    exact div_self hd

/-- Witness for C6 at a concrete input: a `PGV = 0` scenario of `baseNet`
with the baseline solver series `[1]`. -/
theorem C6_witness :
    (∀ row ∈ [ScenarioRow.mk 0 "P1" 0 0], ∀ p,
      findPipe baseNet row.site_id = some p → pf_of row.PGV p.length = 0) ∧
    (apply_damage_states baseNet [ScenarioRow.mk 0 "P1" 0 0] (fun _ => (0, 0)) 0).1 = [] ∧
    mutate baseNet
      (apply_damage_states baseNet [ScenarioRow.mk 0 "P1" 0 0] (fun _ => (0, 0)) 0).1
      testCfg = baseNet ∧
    ∀ x ∈ scenario_serviceability
        (mutate baseNet
          (apply_damage_states baseNet [ScenarioRow.mk 0 "P1" 0 0] (fun _ => (0, 0)) 0).1
          testCfg) (fun _ => [1]), x.2 = 1 := by
  apply C6_zero_rate_scenario
  · intro row hr p hp
    simp only [List.mem_singleton] at hr
    subst hr
    norm_num [repair_rate_of]
  · intro i
    exact le_refl 0
  · intro nm h
    by_cases hnm : nm = "J"
    · subst hnm
      norm_num [expected_demand_mean, findJunction, baseNet, listMean]
    · exfalso
      apply h
      simp only [expected_demand_mean, findJunction, baseNet]
      rw [List.find?_cons_of_neg _ (by simp [Ne.symm hnm])]
      rfl

/-! ### Shape of the accumulated dictionary and the final table -/

/-- Appending a value under a key that is not the head key passes over the
head entry. -/
theorem insertAppend_skip (m : String) (l : List ℚ) (rest : List (String × List ℚ))
    (n : String) (v : ℚ) (h : m ≠ n) :
    insertAppend ((m, l) :: rest) n v = (m, l) :: insertAppend rest n v := by
  rw [insertAppend, if_neg h]

/-- Merging records none of which carries the head entry's key leaves the
head entry untouched. -/
theorem accumulate_cons_skip (hd : String × List ℚ) (tacc : List (String × List ℚ))
    (serv : List (String × ℚ)) (h : ∀ nv ∈ serv, nv.1 ≠ hd.1) :
    accumulate (hd :: tacc) serv = hd :: accumulate tacc serv := by
  induction serv generalizing tacc with
  | nil => rfl
  | cons x s ih =>
    obtain ⟨m, l⟩ := hd
    rw [accumulate, List.foldl_cons,
      insertAppend_skip m l tacc x.1 x.2 (Ne.symm (h x (List.mem_cons_self _ _)))]
    exact ih (insertAppend tacc x.1 x.2) (fun nv hnv => h nv (List.mem_cons_of_mem _ hnv))

/-- Every record emitted for a junction list carries the name of one of its
junctions. -/
theorem mem_name_of_emitted {α : Type} {l : List Junction} {g : Junction → α}
    {nv : String × α}
    (h : nv ∈ l.filterMap (fun j =>
      if j.base_demand = 0 then none else some (j.name, g j))) :
    nv.1 ∈ l.map Junction.name := by
  obtain ⟨j, hj, hfj⟩ := List.mem_filterMap.mp h
  by_cases hd : j.base_demand = 0
  · rw [if_pos hd] at hfj
    cases hfj
  · rw [if_neg hd] at hfj
    obtain rfl := Option.some_injective _ hfj
    exact List.mem_map_of_mem Junction.name hj

/-- Merging one scenario's records into an accumulator aligned on the same
junction list appends each value to its node's list. -/
theorem accumulate_aligned (l : List Junction) (f : Junction → List ℚ) (g : Junction → ℚ)
    (hnd : (l.map Junction.name).Nodup) :
    accumulate
      (l.filterMap (fun j => if j.base_demand = 0 then none else some (j.name, f j)))
      (l.filterMap (fun j => if j.base_demand = 0 then none else some (j.name, g j)))
    = l.filterMap (fun j =>
        if j.base_demand = 0 then none else some (j.name, f j ++ [g j])) := by
  induction l with
  | nil => rfl
  | cons a t ih =>
    rw [List.map_cons, List.nodup_cons] at hnd
    by_cases hd : a.base_demand = 0
    · rw [List.filterMap_cons_none (by rw [if_pos hd]),
        List.filterMap_cons_none (by rw [if_pos hd]),
        List.filterMap_cons_none (by rw [if_pos hd])]
      exact ih hnd.2
    · rw [List.filterMap_cons_some (by rw [if_neg hd]),
        List.filterMap_cons_some (by rw [if_neg hd]),
        List.filterMap_cons_some (by rw [if_neg hd])]
      rw [accumulate, List.foldl_cons]
      have hins : insertAppend ((a.name, f a) ::
          t.filterMap (fun j => if j.base_demand = 0 then none else some (j.name, f j)))
          a.name (g a)
          = (a.name, f a ++ [g a]) ::
            t.filterMap (fun j => if j.base_demand = 0 then none else some (j.name, f j)) := by
        rw [insertAppend, if_pos rfl]
      rw [hins]
      have hskip : ∀ nv ∈ t.filterMap (fun j =>
          if j.base_demand = 0 then none else some (j.name, g j)),
          nv.1 ≠ (a.name, f a ++ [g a]).1 := by
        intro nv hnv heq
        have heq' : nv.1 = a.name := heq
        exact hnd.1 (heq' ▸ mem_name_of_emitted hnv)
      exact (accumulate_cons_skip _ _ _ hskip).trans (by rw [ih hnd.2])

/-- Merging the first scenario's records into the empty accumulator creates
one singleton list per emitted node, in emission order. -/
theorem accumulate_nil_aligned (l : List Junction) (g : Junction → ℚ)
    (hnd : (l.map Junction.name).Nodup) :
    accumulate []
      (l.filterMap (fun j => if j.base_demand = 0 then none else some (j.name, g j)))
    = l.filterMap (fun j =>
        if j.base_demand = 0 then none else some (j.name, [g j])) := by
  induction l with
  | nil => rfl
  | cons a t ih =>
    rw [List.map_cons, List.nodup_cons] at hnd
    by_cases hd : a.base_demand = 0
    · rw [List.filterMap_cons_none (by rw [if_pos hd]),
        List.filterMap_cons_none (by rw [if_pos hd])]
      exact ih hnd.2
    · rw [List.filterMap_cons_some (by rw [if_neg hd]),
        List.filterMap_cons_some (by rw [if_neg hd])]
      rw [accumulate, List.foldl_cons]
      have hins : insertAppend [] a.name (g a) = [(a.name, [g a])] := rfl
      rw [hins]
      have hskip : ∀ nv ∈ t.filterMap (fun j =>
          if j.base_demand = 0 then none else some (j.name, g j)),
          nv.1 ≠ (a.name, [g a]).1 := by
        intro nv hnv heq
        have heq' : nv.1 = a.name := heq
        exact hnd.1 (heq' ▸ mem_name_of_emitted hnv)
      exact (accumulate_cons_skip _ _ _ hskip).trans (by rw [ih hnd.2])

/-- The sequence of scenario-private mutated snapshots the loop produces,
one per scenario key, threading the shared random-stream cursor exactly as
`run_scenarios` does. -/
noncomputable def scenario_nets (base : WaterNetworkModel) (df : List ScenarioRow)
    (cfg : HydraulicConfig) (rng : ℕ → ℕ × ℚ) : List ℤ → ℕ → List WaterNetworkModel
  | [], _ => []
  | i :: rest, k =>
    let st := apply_damage_states base (scenarioGroup df i) rng k
    mutate base st.1 cfg :: scenario_nets base df cfg rng rest st.2

/-- One snapshot is produced per scenario key. -/
theorem scenario_nets_length (base : WaterNetworkModel) (df : List ScenarioRow)
    (cfg : HydraulicConfig) (rng : ℕ → ℕ × ℚ) :
    ∀ (keys : List ℤ) (k : ℕ),
      (scenario_nets base df cfg rng keys k).length = keys.length := by
  intro keys
  induction keys with
  | nil => intro k; rfl
  | cons i rest ih =>
    intro k
    rw [scenario_nets]
    simp only [List.length_cons, ih]

/-- Invariant of the scenario loop under a never-diverging solver: starting
from an accumulator aligned on the eligible base junctions, the loop
returns the accumulator extended, per node, with one serviceability value
per scenario — the value computed on that scenario's private snapshot. -/
theorem run_scenarios_shape (base : WaterNetworkModel) (df : List ScenarioRow)
    (cfg : HydraulicConfig) (rfun : WaterNetworkModel → String → List ℚ)
    (rng : ℕ → ℕ × ℚ)
    (hnd : (base.junctions.map Junction.name).Nodup)
    (hfresh : ∀ j ∈ base.junctions, ∀ s, j.name ≠ "Leak_" ++ s) :
    ∀ (keys : List ℤ) (k : ℕ) (f : Junction → List ℚ),
      run_scenarios base df cfg (fun wn _ => .ok (rfun wn)) rng keys
        (base.junctions.filterMap (fun j =>
          if j.base_demand = 0 then none else some (j.name, f j))) k
      = .ok (base.junctions.filterMap (fun j =>
          if j.base_demand = 0 then none else some (j.name,
            f j ++ (scenario_nets base df cfg rng keys k).map
              (fun wn => listMean (rfun wn j.name) / j.base_demand)))) := by
  intro keys
  induction keys with
  | nil =>
    intro k f
    rw [run_scenarios, scenario_nets]
    simp only [List.map_nil, List.append_nil]
  | cons i rest ih =>
    intro k f
    rw [run_scenarios, scenario_nets]
    simp only
    rw [scenario_serviceability_mutate base _ cfg _ hnd hfresh]
    rw [accumulate_aligned _ f _ hnd]
    rw [ih _ (fun j => f j ++ [listMean (rfun (mutate base
      (apply_damage_states base (scenarioGroup df i) rng k).1 cfg) j.name) / j.base_demand])]
    congr 1
    apply List.filterMap_congr
    intro j hj
    by_cases hd : j.base_demand = 0
    · rw [if_pos hd, if_pos hd]
    · rw [if_neg hd, if_neg hd]
      rw [List.map_cons, List.append_assoc]
      rfl

/-- When every per-node list has the same length `m`, the reshape succeeds
and produces, for each scenario position `t < m` in order, one row per node
in dictionary order. -/
theorem reshape_ok_of_const_length (acc : List (String × List ℚ)) (m : ℕ)
    (hlen : ∀ x ∈ acc, x.2.length = m) :
    reshape acc = .ok ((List.range m).flatMap (fun t =>
      acc.map (fun x => ((t : ℤ), x.1, x.2.getD t 0)))) := by
  cases acc with
  | nil =>
    rw [reshape]
    congr 1
    induction (List.range m) with
    | nil => rfl
    | cons t ts ih => rw [List.flatMap_cons, ih]; rfl
  | cons hd tl =>
    obtain ⟨n, l⟩ := hd
    have hl : l.length = m := hlen (n, l) (List.mem_cons_self _ _)
    rw [reshape]
    rw [if_pos ?hall]
    case hall =>
      rw [List.all_eq_true]
      intro x hx
      rw [beq_iff_eq, hlen x hx, hl]
    rw [hl]

/-- A successful reshape forces all per-node lists to share one length. -/
theorem reshape_ok_lengths (acc : List (String × List ℚ))
    (table : List (ℤ × String × ℚ)) (h : reshape acc = .ok table) :
    ∀ x ∈ acc, ∀ y ∈ acc, x.2.length = y.2.length := by
  cases acc with
  | nil => intro x hx; cases hx
  | cons hd tl =>
    obtain ⟨n, l⟩ := hd
    rw [reshape] at h
    by_cases hall : ((n, l) :: tl).all (fun x => x.2.length == l.length)
    · have hlen : ∀ x ∈ (n, l) :: tl, x.2.length = l.length := by
        intro x hx
        have := (List.all_eq_true.mp hall) x hx
        exact beq_iff_eq.mp this
      intro x hx y hy
      rw [hlen x hx, hlen y hy]
    · rw [if_neg hall] at h
      cases h

/-- C10: the final wide-to-long reshape assumes every emitted node has
exactly one serviceability value per scenario.  If two nodes' value lists
have unequal lengths the reshape raises (pandas `from_dict` ValueError)
instead of returning a table, a successful reshape forces equal lengths,
and the batch run returns a table only through a successful reshape of its
accumulated dictionary — so output is produced only when every emitted
node has a value for exactly the same number of scenarios. -/
theorem C10_reshape_requires_rectangular :
    (∀ acc : List (String × List ℚ),
      (∃ x ∈ acc, ∃ y ∈ acc, x.2.length ≠ y.2.length) →
      reshape acc = .error "All arrays must be of the same length") ∧
    (∀ (acc : List (String × List ℚ)) (table : List (ℤ × String × ℚ)),
      reshape acc = .ok table → ∀ x ∈ acc, ∀ y ∈ acc, x.2.length = y.2.length) ∧
    (∀ (base : WaterNetworkModel) (df : List ScenarioRow) (cfg : HydraulicConfig)
      (sim : WaterNetworkModel → HydraulicConfig → Except String (String → List ℚ))
      (rng : ℕ → ℕ × ℚ) (table : List (ℤ × String × ℚ)),
      run_hydraulic_simulation base df cfg sim rng = .ok table →
      ∃ acc, run_scenarios base df cfg sim rng (scenarioKeys df) [] 0 = .ok acc ∧
        reshape acc = .ok table ∧
        ∀ x ∈ acc, ∀ y ∈ acc, x.2.length = y.2.length) := by
  refine ⟨?_, reshape_ok_lengths, ?_⟩
  · intro acc ⟨x, hx, y, hy, hxy⟩
    cases acc with
    | nil => cases hx
    | cons hd tl =>
      obtain ⟨n, l⟩ := hd
      rw [reshape]
      rw [if_neg ?hne]
      case hne =>
        intro hall
        have hlen : ∀ z ∈ (n, l) :: tl, z.2.length = l.length := by
          intro z hz
          exact beq_iff_eq.mp ((List.all_eq_true.mp hall) z hz)
        exact hxy ((hlen x hx).trans (hlen y hy).symm)
  · intro base df cfg sim rng table h
    rw [run_hydraulic_simulation] at h
    cases hrun : run_scenarios base df cfg sim rng (scenarioKeys df) [] 0 with
    | error e => rw [hrun] at h; cases h
    | ok acc =>
      rw [hrun] at h
      exact ⟨acc, rfl, h, reshape_ok_lengths acc table h⟩

/-- Witness for C10 at a concrete input: a dictionary whose two nodes have
lists of lengths 1 and 0 makes the reshape raise. -/
theorem C10_witness :
    reshape [("a", [(1 : ℚ)]), ("b", [])]
      = .error "All arrays must be of the same length" :=
  C10_reshape_requires_rectangular.1 _
    ⟨("a", [(1 : ℚ)]), by simp, ("b", []), by simp, by simp⟩

/-- Closed form of the whole batch under a never-diverging solver: one row
per (scenario position, junction with nonzero baseline demand), with the
`scenario_index` column equal to the 0-based position of the scenario in
ascending key order and the value computed on that scenario's snapshot. -/
theorem run_ok_closed_form (base : WaterNetworkModel)
    (df : List ScenarioRow) (cfg : HydraulicConfig)
    (rfun : WaterNetworkModel → String → List ℚ) (rng : ℕ → ℕ × ℚ)
    (hnd : (base.junctions.map Junction.name).Nodup)
    (hfresh : ∀ j ∈ base.junctions, ∀ s, j.name ≠ "Leak_" ++ s) :
    run_hydraulic_simulation base df cfg (fun wn _ => .ok (rfun wn)) rng
      = .ok ((List.range (scenarioKeys df).length).flatMap (fun t =>
          base.junctions.filterMap (fun j =>
            if j.base_demand = 0 then none
            else some ((t : ℤ), j.name,
              ((scenario_nets base df cfg rng (scenarioKeys df) 0).map
                (fun wn => listMean (rfun wn j.name) / j.base_demand)).getD t 0)))) := by
  cases hkeys : scenarioKeys df with
  | nil =>
    rw [run_hydraulic_simulation, hkeys]
    rfl
  | cons i rest =>
    have hrun : run_scenarios base df cfg (fun wn _ => .ok (rfun wn)) rng (i :: rest) [] 0
        = .ok (base.junctions.filterMap (fun j =>
            if j.base_demand = 0 then none
            else some (j.name,
              (scenario_nets base df cfg rng (i :: rest) 0).map
                (fun wn => listMean (rfun wn j.name) / j.base_demand)))) := by
      rw [run_scenarios]
      simp only
      rw [scenario_serviceability_mutate base _ cfg _ hnd hfresh,
        accumulate_nil_aligned _ _ hnd,
        run_scenarios_shape base df cfg rfun rng hnd hfresh rest _ _]
      refine congrArg Except.ok (List.filterMap_congr ?_)
      intro j hj
      by_cases hd : j.base_demand = 0
      · rw [if_pos hd, if_pos hd]
      · rw [if_neg hd, if_neg hd, scenario_nets]
        simp only [List.map_cons, List.singleton_append]
    rw [run_hydraulic_simulation, hkeys, hrun]
    simp only
    rw [reshape_ok_of_const_length _ (rest.length + 1) ?hlen]
    case hlen =>
      intro x hx
      obtain ⟨j, hj, hfj⟩ := List.mem_filterMap.mp hx
      by_cases hd : j.base_demand = 0
      · rw [if_pos hd] at hfj
        cases hfj
      · rw [if_neg hd] at hfj
        obtain rfl := Option.some_injective _ hfj
        simp only [List.length_map]
        rw [scenario_nets_length]
        rfl
    congr 1
    have hfun : ∀ t : ℕ,
        (base.junctions.filterMap (fun j =>
          if j.base_demand = 0 then none
          else some (j.name,
            (scenario_nets base df cfg rng (i :: rest) 0).map
              (fun wn => listMean (rfun wn j.name) / j.base_demand)))).map
          (fun x => ((t : ℤ), x.1, x.2.getD t 0))
        = base.junctions.filterMap (fun j =>
            if j.base_demand = 0 then none
            else some ((t : ℤ), j.name,
              ((scenario_nets base df cfg rng (i :: rest) 0).map
                (fun wn => listMean (rfun wn j.name) / j.base_demand)).getD t 0)) := by
      intro t
      rw [List.map_filterMap]
      apply List.filterMap_congr
      intro j hj
      by_cases hd : j.base_demand = 0
      · rw [if_pos hd, if_pos hd]
        rfl
      · rw [if_neg hd, if_neg hd]
        rfl
    have hm : (i :: rest).length = rest.length + 1 := rfl
    rw [← hm]
    exact congrArg _ (funext hfun)

/-- C2 amended: under a never-diverging solver the batch returns exactly
one row per (scenario, junction with nonzero baseline required demand) —
never a row for a node whose required demand is 0 — but each row's
`scenario_index` is the 0-based position `t` of the producing scenario in
ascending key order (the positional column labels of the pandas reshape),
which equals the original integer key only when the keys are exactly
`0..n-1`; the row's value is the serviceability computed on the `t`-th
scenario's private snapshot. -/
theorem C2_amended_positional_scenario_index (base : WaterNetworkModel)
    (df : List ScenarioRow) (cfg : HydraulicConfig)
    (rfun : WaterNetworkModel → String → List ℚ) (rng : ℕ → ℕ × ℚ)
    (hnd : (base.junctions.map Junction.name).Nodup)
    (hfresh : ∀ j ∈ base.junctions, ∀ s, j.name ≠ "Leak_" ++ s) :
    run_hydraulic_simulation base df cfg (fun wn _ => .ok (rfun wn)) rng
      = .ok ((List.range (scenarioKeys df).length).flatMap (fun t =>
          base.junctions.filterMap (fun j =>
            if j.base_demand = 0 then none
            else some ((t : ℤ), j.name,
              ((scenario_nets base df cfg rng (scenarioKeys df) 0).map
                (fun wn => listMean (rfun wn j.name) / j.base_demand)).getD t 0)))) :=
  run_ok_closed_form base df cfg rfun rng hnd hfresh

/-- Witness for the amended C2 at a concrete input: a single-scenario batch
on `baseNet` with a constant-demand solver. -/
theorem C2_amended_witness :
    run_hydraulic_simulation baseNet [ScenarioRow.mk 0 "J" 0 0] testCfg
      (fun wn _ => .ok ((fun (_ : WaterNetworkModel) (_ : String) => [(1 : ℚ)]) wn))
      (fun _ => (0, 0))
      = .ok ((List.range (scenarioKeys [ScenarioRow.mk 0 "J" 0 0]).length).flatMap (fun t =>
          baseNet.junctions.filterMap (fun j =>
            if j.base_demand = 0 then none
            else some ((t : ℤ), j.name,
              ((scenario_nets baseNet [ScenarioRow.mk 0 "J" 0 0] testCfg (fun _ => (0, 0))
                  (scenarioKeys [ScenarioRow.mk 0 "J" 0 0]) 0).map
                (fun wn => listMean ((fun (_ : WaterNetworkModel) (_ : String) =>
                  [(1 : ℚ)]) wn j.name) / j.base_demand)).getD t 0)))) :=
  C2_amended_positional_scenario_index baseNet _ testCfg _ _
    baseNet_names_nodup baseNet_names_fresh

/-- C2 counterexample: a batch whose scenario keys are `{1, 3}` (not
`0..n-1`).  The key-3 scenario damages pipe `P1`, so its serviceability
record for node `J` is `1/2`; yet the returned table is
`[(0, J, 1), (1, J, 1/2)]` — the `1/2` row produced by scenario key 3
carries `scenario_index = 1`, and no row carries `scenario_index = 3`,
refuting the claim that each row's `scenario_index` is the integer key of
the scenario that produced it. -/
theorem C2_counterexample_scenario_key_not_preserved :
    run_hydraulic_simulation baseNet
      [ScenarioRow.mk 1 "P1" 0 0, ScenarioRow.mk 3 "P1" 0 100] testCfg
      (fun wn _ => .ok (leakSensitiveDemand wn)) (fun _ => (3, 0))
      = .ok [((0 : ℤ), "J", (1 : ℚ)), ((1 : ℤ), "J", (1 / 2 : ℚ))] ∧
    (∀ x ∈ [((0 : ℤ), "J", (1 : ℚ)), ((1 : ℤ), "J", (1 / 2 : ℚ))], x.1 ≠ 3) := by
  constructor
  · rw [run_ok_closed_form baseNet _ testCfg leakSensitiveDemand (fun _ => (3, 0))
      baseNet_names_nodup baseNet_names_fresh]
    have hfind : findPipe baseNet "P1" = some (Pipe.mk 1000 (1 / 2)) := rfl
    have hkeys : scenarioKeys
        [ScenarioRow.mk 1 "P1" 0 0, ScenarioRow.mk 3 "P1" 0 100] = [1, 3] := rfl
    have hg1 : scenarioGroup
        [ScenarioRow.mk 1 "P1" 0 0, ScenarioRow.mk 3 "P1" 0 100] 1
        = [ScenarioRow.mk 1 "P1" 0 0] := rfl
    have hg3 : scenarioGroup
        [ScenarioRow.mk 1 "P1" 0 0, ScenarioRow.mk 3 "P1" 0 100] 3
        = [ScenarioRow.mk 3 "P1" 0 100] := rfl
    have hpf0 : pf_of 0 1000 = 0 := pf_zero_of (by norm_num [repair_rate_of])
    have hst1 : apply_damage_states baseNet [ScenarioRow.mk 1 "P1" 0 0]
        (fun _ => ((3 : ℕ), (0 : ℚ))) 0 = ([], 1) := by
      simp only [apply_damage_states, hfind, hpf0]
      norm_num
    have hst2 : apply_damage_states baseNet [ScenarioRow.mk 3 "P1" 0 100]
        (fun _ => ((3 : ℕ), (0 : ℚ))) 1 = ([("P1", orifice_area_of 3 (1 / 2))], 2) := by
      simp only [apply_damage_states, hfind]
      norm_num
      exact pf_pos_base
    have hmutnil : mutate baseNet [] testCfg = baseNet := rfl
    have hnets : scenario_nets baseNet
        [ScenarioRow.mk 1 "P1" 0 0, ScenarioRow.mk 3 "P1" 0 100] testCfg
        (fun _ => (3, 0)) [1, 3] 0
        = [baseNet, mutate baseNet [("P1", orifice_area_of 3 (1 / 2))] testCfg] := by
      simp only [scenario_nets, hg1, hg3, hst1, hst2, hmutnil]
    have hoa3 : (0 : ℝ) < orifice_area_of 3 (1 / 2) := by
      rw [orifice_area_of_three]; positivity
    have hmu1_l : (mutate baseNet [("P1", orifice_area_of 3 (1 / 2))] testCfg).leaks
        = [Leak.mk "Leak_P1" (orifice_area_of 3 (1 / 2)) 0 24] := rfl
    have hdm1 : leakSensitiveDemand baseNet = fun _ => [1] := by
      funext x
      simp only [leakSensitiveDemand]
      rw [if_pos (by simp [baseNet])]
    have hdm2 : leakSensitiveDemand
        (mutate baseNet [("P1", orifice_area_of 3 (1 / 2))] testCfg) = fun _ => [1 / 2] := by
      funext x
      simp only [leakSensitiveDemand, hmu1_l]
      rw [if_neg (by simp only [List.mem_singleton, forall_eq]; exact ne_of_gt hoa3)]
    rw [hkeys, hnets]
    simp only [List.map_cons, List.map_nil, hdm1, hdm2]
    have hbj : baseNet.junctions = [Junction.mk "J" 1] := rfl
    simp only [hbj]
    norm_num [listMean, List.filterMap_cons, List.range_succ]
  · decide
